import Mathlib

/-!
Verification of the Kanboard JSON-RPC API client (`kanboard.py`).

The development shallowly embeds the client's pure logic:
* JSON values (`Json`) and the Python exceptions the client can raise (`PyExc`);
* `parse_response`, mirroring `Client._parse_response`;
* `do_request`, mirroring `Client._do_request` with the network abstracted
  as a `TransportResult`;
* the identifier transforms `to_camel_case` (via Python's `str.title`),
  `is_async_method_name`, `get_funcname_from_async_name`;
* `executePayload` / `executeHeaders`, mirroring `Client.execute`'s request
  construction, with base64 and UTF-8 encoding spelled out, and
  `headersGet`, the last-binding-wins read of the headers dict literal;
* `getattr_invoke`, mirroring the dynamic dispatch in `Client.__getattr__`,
  and `client_call`, the same dispatch carried through to the call's
  outcome, including the async path's `self._event_loop` lookup;
* `clientInitEventLoop` / `asyncCallLoop`, mirroring the event-loop handling
  in `Client.__init__` and the asynchronous wrapper.

Python strings are modeled as `List Char` where character-level structure
matters (identifier transforms) and as `String` elsewhere; Python `bytes`
are modeled as `List Nat` (each entry < 256).
-/

/-- JSON values as produced by Python's `json.loads`: `null`/`None`,
booleans, numbers (modeled as integers; the claims only involve integral
numbers), strings, arrays (Python lists) and objects (Python dicts,
modeled as ordered key/value lists). -/
inductive Json where
  | null : Json
  | bool (b : Bool) : Json
  | num (n : Int) : Json
  | str (s : String) : Json
  | arr (xs : List Json) : Json
  | obj (kvs : List (String × Json)) : Json

/-- The Python exceptions the embedded client code can raise.
`clientError` is the library's own `ClientError` (its payload is the single
constructor argument, a Python value); `typeError` and `attributeError` are
the built-in exceptions that escape `Client._parse_response` when the
decoded body is not shaped like a JSON-RPC response object. -/
inductive PyExc where
  | clientError (msg : Json) : PyExc
  | typeError : PyExc
  | attributeError : PyExc

/-- Python `dict.get(k)` lookup result on an object's key/value list,
`Json.null` (Python `None`) when the key is absent.  Python dicts keep the
last binding of a duplicated key, hence the reversed search. -/
def dictGet (kvs : List (String × Json)) (k : String) : Json :=
  match kvs.reverse.find? (fun p => p.1 == k) with
  | some p => p.2
  | none => Json.null

/-- Python `k in d` membership test on an object's key/value list. -/
def dictHasKey (kvs : List (String × Json)) (k : String) : Bool :=
  kvs.any (fun p => p.1 == k)

/-- Python `v == key` where `key` is a string: true exactly for an equal
string; Python's `==` between a string and a value of any other type is
false. -/
def pyEqStr (v : Json) (key : String) : Bool :=
  match v with
  | Json.str s => s == key
  | _ => false

/-- Python's `in` operator applied to a decoded JSON value, as used by
`"error" in body` in `Client._parse_response`: key membership for dicts,
substring test for strings, element `==` comparison for lists, and a
`TypeError` for values that do not support membership tests. -/
def pyContains (body : Json) (key : String) : Except PyExc Bool :=
  match body with
  | Json.obj kvs => Except.ok (dictHasKey kvs key)
  | Json.str s => Except.ok (decide (key.data <:+: s.data))
  | Json.arr xs => Except.ok (xs.any (fun v => pyEqStr v key))
  | _ => Except.error PyExc.typeError

/-- Python's `.get(k)` method call on a decoded JSON value, as used by
`body.get(...)` in `Client._parse_response`: defined on dicts only, an
`AttributeError` on every other value (including `None`). -/
def pyGet (body : Json) (key : String) : Except PyExc Json :=
  match body with
  | Json.obj kvs => Except.ok (dictGet kvs key)
  | _ => Except.error PyExc.attributeError

/-- Abstraction of a raw HTTP response body (Python `bytes`) by the outcome
of `response.decode(errors="ignore")` followed by `json.loads`:
the body is empty, or it is non-empty and `json.loads` raises a
`ValueError` carrying message `e`, or it decodes to a JSON value.
(`decode(errors="ignore")` itself never fails.) -/
inductive HttpBody where
  | empty : HttpBody
  | undecodable (e : String) : HttpBody
  | decodes (body : Json) : HttpBody

/-- Mirrors `Client._parse_response` (kanboard.py lines 135-148).
The `try`/`except ValueError` block only catches the `json.loads` failure:
the `ClientError` raised for an `"error"` member, and the `TypeError` /
`AttributeError` raised on unexpectedly-shaped values, are not
`ValueError`s and propagate unchanged. -/
def parse_response (response : HttpBody) : Except PyExc Json :=
  match response with
  | HttpBody.empty =>
      Except.error (PyExc.clientError (Json.str "Empty response from server"))
  | HttpBody.undecodable e =>
      Except.error (PyExc.clientError (Json.str ("Failed to parse JSON response: " ++ e)))
  | HttpBody.decodes body =>
      match pyContains body "error" with
      | Except.error exc => Except.error exc
      | Except.ok true =>
          match pyGet body "error" with
          | Except.error exc => Except.error exc
          | Except.ok errVal =>
              match pyGet errVal "message" with
              | Except.error exc => Except.error exc
              | Except.ok message => Except.error (PyExc.clientError message)
      | Except.ok false => pyGet body "result"

/-- Outcome of the HTTP POST in `Client._do_request`: the `try` block either
raises some exception whose `str` is `msg` (DNS, connect, TLS, HTTP error
status, ...) or returns the response bytes, abstracted as an `HttpBody`. -/
inductive TransportResult where
  | fail (msg : String) : TransportResult
  | success (body : HttpBody) : TransportResult

/-- Mirrors `Client._do_request` (kanboard.py lines 150-165): any exception
from the request/TLS/urlopen block is re-raised as `ClientError(str(e))`;
a received body is handed to `_parse_response` outside that `try`. -/
def do_request (t : TransportResult) : Except PyExc Json :=
  match t with
  | TransportResult.fail msg => Except.error (PyExc.clientError (Json.str msg))
  | TransportResult.success body => parse_response body

/-- True when the call outcome is a result value or a `ClientError`,
false when any other exception type escapes. -/
def resultOrClientError : Except PyExc Json → Bool
  | Except.ok _ => true
  | Except.error (PyExc.clientError _) => true
  | Except.error _ => false

/-- Python `s.split(sep)` for a single-character separator: always returns
at least one (possibly empty) segment; `n` consecutive separators produce
`n - 1` empty segments between them. -/
def splitOnChar (sep : Char) : List Char → List (List Char)
  | [] => [[]]
  | c :: rest =>
      match splitOnChar sep rest with
      | [] => [[c]]
      | seg :: segs =>
          if c = sep then [] :: seg :: segs else (c :: seg) :: segs

/-- ASCII upper-casing of one character, as Python's `str.title` applies to
the first letter of a word (`kanboard.py` only feeds it ASCII identifiers). -/
def toUpperAscii (c : Char) : Char :=
  if 97 ≤ c.toNat ∧ c.toNat ≤ 122 then Char.ofNat (c.toNat - 32) else c

/-- ASCII lower-casing of one character, as Python's `str.title` applies to
the non-initial letters of a word. -/
def toLowerAscii (c : Char) : Char :=
  if 65 ≤ c.toNat ∧ c.toNat ≤ 90 then Char.ofNat (c.toNat + 32) else c

/-- ASCII letter test: the word-character test of Python's `str.title`
restricted to ASCII (a word is a maximal run of letters). -/
def isAsciiLetter (c : Char) : Bool :=
  decide ((97 ≤ c.toNat ∧ c.toNat ≤ 122) ∨ (65 ≤ c.toNat ∧ c.toNat ≤ 90))

/-- Helper for `pyTitle`: walks the characters tracking whether the
previous character was a letter; a letter starting a word is upper-cased,
a letter continuing a word is lower-cased, other characters pass through. -/
def pyTitleGo (prevLetter : Bool) : List Char → List Char
  | [] => []
  | c :: rest =>
      if isAsciiLetter c then
        (if prevLetter then toLowerAscii c else toUpperAscii c) :: pyTitleGo true rest
      else
        c :: pyTitleGo false rest

/-- Python's `str.title()` on ASCII text: each word (maximal run of
letters) gets its first letter upper-cased and the rest lower-cased;
non-letters are unchanged and delimit words. -/
def pyTitle (s : List Char) : List Char :=
  pyTitleGo false s

/-- Mirrors `Client._to_camel_case` (kanboard.py lines 130-133):
`components = snake_str.split("_")`, then
`components[0] + "".join(x.title() for x in components[1:])`. -/
def to_camel_case (snake_str : List Char) : List Char :=
  match splitOnChar '_' snake_str with
  | [] => []
  | c0 :: rest => c0 ++ (rest.map pyTitle).flatten

/-- Modelled from the spec's words (claim C1 refinement side): split on the
underscore separator, keep the first segment unchanged, upper-case the
first letter of each subsequent segment leaving that segment's remaining
characters unchanged, and concatenate. -/
def capFirstSpec : List Char → List Char
  | [] => []
  | c :: rest => toUpperAscii c :: rest

/-- Modelled from the spec's words: the camel-case wire-name transform the
spec describes, to be compared with the source-derived `to_camel_case`. -/
def camelCaseSpec (s : List Char) : List Char :=
  match splitOnChar '_' s with
  | [] => []
  | c0 :: rest => c0 ++ (rest.map capFirstSpec).flatten

/-- The module constant `ASYNC_FUNCNAME_MARKER = "_async"`. -/
def ASYNC_FUNCNAME_MARKER : List Char := '_' :: 'a' :: 's' :: 'y' :: 'n' :: 'c' :: []

/-- Mirrors `Client.is_async_method_name` (kanboard.py lines 122-124):
`funcname.endswith(ASYNC_FUNCNAME_MARKER)`. -/
def is_async_method_name (funcname : List Char) : Bool :=
  ASYNC_FUNCNAME_MARKER.isSuffixOf funcname

/-- Python `s[:n]` for an `Int` index `n`: a negative index counts from the
end (clamped at zero), a non-negative one takes that many characters. -/
def pySliceTo (s : List Char) (n : Int) : List Char :=
  if n < 0 then s.take (s.length - (-n).toNat) else s.take n.toNat

/-- Mirrors `Client.get_funcname_from_async_name` (kanboard.py lines
126-128): `funcname[: len(funcname) - len(ASYNC_FUNCNAME_MARKER)]`. -/
def get_funcname_from_async_name (funcname : List Char) : List Char :=
  pySliceTo funcname ((funcname.length : Int) - (ASYNC_FUNCNAME_MARKER.length : Int))

/-- UTF-8 encoding of one code point, as Python's `str.encode()` produces
(the client's username, password and request body are encoded this way). -/
def utf8Char (c : Char) : List Nat :=
  let n := c.toNat
  if n < 128 then [n]
  else if n < 2048 then [192 + n / 64, 128 + n % 64]
  else if n < 65536 then [224 + n / 4096, 128 + n / 64 % 64, 128 + n % 64]
  else [240 + n / 262144, 128 + n / 4096 % 64, 128 + n / 64 % 64, 128 + n % 64]

/-- Python `s.encode()`: the UTF-8 bytes of a string. -/
def utf8Bytes (s : String) : List Nat :=
  (s.data.map utf8Char).flatten

/-- The 64 digits of the standard base64 alphabet. -/
def base64Alphabet : List Char :=
  "ABCDEFGHIJKLMNOPQRSTUVWXYZabcdefghijklmnopqrstuvwxyz0123456789+/".data

/-- The base64 digit for a 6-bit value. -/
def b64Digit (n : Nat) : Char :=
  base64Alphabet.getD n 'A'

/-- `base64.b64encode` on a byte list: standard base64 with `=` padding,
three input bytes per four output characters. -/
def base64Encode : List Nat → List Char
  | [] => []
  | [b1] =>
      [b64Digit (b1 / 4), b64Digit (b1 % 4 * 16), '=', '=']
  | [b1, b2] =>
      [b64Digit (b1 / 4), b64Digit (b1 % 4 * 16 + b2 / 16), b64Digit (b2 % 16 * 4), '=']
  | b1 :: b2 :: b3 :: rest =>
      b64Digit (b1 / 4) :: b64Digit (b1 % 4 * 16 + b2 / 16) ::
        b64Digit (b2 % 16 * 4 + b3 / 64) :: b64Digit (b3 % 64) :: base64Encode rest

/-- `base64.b64encode(s.encode()).decode()` as one string-to-string step:
the base64 text of the UTF-8 bytes of `s`. -/
def b64OfString (s : String) : String :=
  String.mk (base64Encode (utf8Bytes s))

/-- The module constant `DEFAULT_AUTH_HEADER = "Authorization"`. -/
def DEFAULT_AUTH_HEADER : String := "Authorization"

/-- The constructor arguments of `Client.__init__` that feed request
construction (the TLS options only configure the transport, which is
abstracted as `TransportResult`). -/
structure ClientConfig where
  url : String
  username : String
  password : String
  auth_header : String := DEFAULT_AUTH_HEADER
  user_agent : String := "Kanboard Python API Client"

/-- Mirrors the payload built in `Client.execute` (kanboard.py line 181):
`{"id": 1, "jsonrpc": "2.0", "method": method, "params": kwargs}`. -/
def executePayload (method : String) (kwargs : List (String × Json)) : Json :=
  Json.obj [("id", Json.num 1), ("jsonrpc", Json.str "2.0"),
            ("method", Json.str method), ("params", Json.obj kwargs)]

/-- Mirrors the headers dict literal built in `Client.execute`
(kanboard.py lines 183-189), as the ordered list of its entries: the auth
header value is `base64(username + ":" + password)`, with the text
`"Basic "` in front exactly when the configured header name is the
default `"Authorization"`.  Being a Python dict literal, a later entry
with the same key overwrites an earlier one, so the dict the program
sends is this entry list read with last-match-wins lookup
(`headersGet`): an auth header named `"Content-Type"` or `"User-Agent"`
is overwritten by the fixed entries that follow it. -/
def executeHeaders (cfg : ClientConfig) : List (String × String) :=
  let credentials := b64OfString (cfg.username ++ ":" ++ cfg.password)
  let authValueStart := if cfg.auth_header = DEFAULT_AUTH_HEADER then "Basic " else ""
  [(cfg.auth_header, authValueStart ++ credentials),
   ("Content-Type", "application/json"),
   ("User-Agent", cfg.user_agent)]

/-- Lookup in a Python dict literal given as its ordered entry list:
later duplicate keys overwrite earlier ones, so the last matching entry
wins; `none` when the key is absent from the dict. -/
def headersGet (entries : List (String × String)) (k : String) : Option String :=
  match entries.reverse.find? (fun p => p.1 == k) with
  | some p => some p.2
  | none => none

/-- The HTTP request `Client.execute` hands to `Client._do_request`. -/
structure RpcRequest where
  payload : Json
  headers : List (String × String)

/-- The request built by one `Client.execute` call. -/
def executeRequest (cfg : ClientConfig) (method : String)
    (kwargs : List (String × Json)) : RpcRequest :=
  { payload := executePayload method kwargs, headers := executeHeaders cfg }

/-- Mirrors `Client.execute` end to end: build the request, send it through
the transport (`net` abstracts the network's reaction to the request), and
parse the outcome via `Client._do_request`. -/
def execute (cfg : ClientConfig) (net : RpcRequest → TransportResult)
    (method : String) (kwargs : List (String × Json)) : Except PyExc Json :=
  do_request (net (executeRequest cfg method kwargs))

/-- The call shape produced by `Client.__getattr__` for one attribute
access: whether the asynchronous path was chosen, the wire method name
passed to `Client.execute`, and the params mapping it will send. -/
structure DispatchedCall where
  isAsync : Bool
  method : String
  params : List (String × Json)

/-- Mirrors `Client.__getattr__` (kanboard.py lines 103-120): a name ending
in the async marker dispatches to the executor-wrapped `execute` with the
marker stripped before camel-casing; any other name dispatches to `execute`
directly.  Both inner functions accept `*args, **kwargs` but forward only
`**kwargs`, so the positional arguments `args` are dropped. -/
def getattr_invoke (name : List Char) (args : List Json)
    (kwargs : List (String × Json)) : DispatchedCall :=
  if is_async_method_name name then
    { isAsync := true,
      method := String.mk (to_camel_case (get_funcname_from_async_name name)),
      params := kwargs }
  else
    { isAsync := false,
      method := String.mk (to_camel_case name),
      params := kwargs }

/-- An asyncio event loop, distinguished by where it came from: supplied by
the caller to `Client.__init__`, obtained from `asyncio.get_event_loop()`,
or created by `asyncio.new_event_loop()`. -/
inductive EventLoop where
  | supplied (id : Nat) : EventLoop
  | ambient : EventLoop
  | fresh : EventLoop

/-- Mirrors the event-loop handling of `Client.__init__` (kanboard.py lines
97-101): the `_event_loop` attribute stored on the new client.  Python runs
`if not loop:` and assigns `asyncio.get_event_loop()` (or, when that raises
`RuntimeError`, `asyncio.new_event_loop()`) only in that branch; a supplied
loop is truthy, so the branch is skipped and the attribute is never
assigned (`none`). `ambientAvailable` records whether `get_event_loop()`
succeeds. -/
def clientInitEventLoop (loop : Option EventLoop) (ambientAvailable : Bool) :
    Option EventLoop :=
  match loop with
  | none => some (if ambientAvailable then EventLoop.ambient else EventLoop.fresh)
  | some _ => none

/-- Mirrors the loop lookup of the async wrapper in `Client.__getattr__`
(kanboard.py lines 106-112): `self._event_loop.run_in_executor(...)`.
When `_event_loop` was stored, the call runs on that loop; when it was
never assigned, the attribute access falls through to `__getattr__`, which
returns a dispatch function, and `.run_in_executor` on a plain function
raises `AttributeError`. -/
def asyncCallLoop (storedLoop : Option EventLoop) : Except PyExc EventLoop :=
  match storedLoop with
  | some l => Except.ok l
  | none => Except.error PyExc.attributeError

/-- The client state a dispatched call sees: the request configuration and
the `_event_loop` attribute as `Client.__init__` left it (`none` when the
attribute was never assigned). -/
structure ClientState where
  cfg : ClientConfig
  eventLoop : Option EventLoop

/-- Mirrors one dynamically dispatched call through `Client.__getattr__`
end to end, including awaiting the coroutine on the async path
(kanboard.py lines 103-120): a name ending in the async marker first
evaluates `self._event_loop` — when the attribute was never assigned the
access falls through to `__getattr__`, whose returned dispatch function
has no `run_in_executor`, raising `AttributeError` before any request is
made — and otherwise runs the same `execute` on the executor, with the
marker stripped before camel-casing; any other name calls `execute`
directly.  Positional `args` are accepted and dropped by both paths. -/
def client_call (st : ClientState) (net : RpcRequest → TransportResult)
    (name : List Char) (args : List Json) (kwargs : List (String × Json)) :
    Except PyExc Json :=
  if is_async_method_name name then
    match st.eventLoop with
    | none => Except.error PyExc.attributeError
    | some _ =>
        execute st.cfg net
          (String.mk (to_camel_case (get_funcname_from_async_name name))) kwargs
  else
    execute st.cfg net (String.mk (to_camel_case name)) kwargs

/-- Response bodies whose decoded shape the client handles without leaking
a non-`ClientError` exception: empty bodies, undecodable bodies, and bodies
decoding to a JSON object whose `"error"` member, when present, is itself
an object. -/
def wellShapedBody : HttpBody → Bool
  | HttpBody.empty => true
  | HttpBody.undecodable _ => true
  | HttpBody.decodes (Json.obj kvs) =>
      if dictHasKey kvs "error" then
        match dictGet kvs "error" with
        | Json.obj _ => true
        | _ => false
      else true
  | HttpBody.decodes _ => false

/-- Transport outcomes covered by `wellShapedBody`, plus transport
failures (which never reach the parser). -/
def wellShaped : TransportResult → Bool
  | TransportResult.fail _ => true
  | TransportResult.success body => wellShapedBody body

theorem isAsciiLetter_of_lower {c : Char} (h1 : 97 ≤ c.toNat) (h2 : c.toNat ≤ 122) :
    isAsciiLetter c = true := by
  simp only [isAsciiLetter, decide_eq_true_eq]
  exact Or.inl ⟨h1, h2⟩

theorem toLowerAscii_of_lower {c : Char} (h1 : 97 ≤ c.toNat) : toLowerAscii c = c := by
  unfold toLowerAscii
  rw [if_neg (by omega)]

theorem pyTitleGo_true_of_lower (s : List Char)
    (h : ∀ c ∈ s, 97 ≤ c.toNat ∧ c.toNat ≤ 122) : pyTitleGo true s = s := by
  induction s with
  | nil => rfl
  | cons c rest ih =>
      have hc := h c (List.mem_cons_self c rest)
      have hrest := ih (fun d hd => h d (List.mem_cons_of_mem c hd))
      simp [pyTitleGo, isAsciiLetter_of_lower hc.1 hc.2, toLowerAscii_of_lower hc.1, hrest]

theorem pyTitle_of_lower (s : List Char)
    (h : ∀ c ∈ s, 97 ≤ c.toNat ∧ c.toNat ≤ 122) : pyTitle s = capFirstSpec s := by
  cases s with
  | nil => rfl
  | cons c rest =>
      have hc := h c (List.mem_cons_self c rest)
      have hrest := pyTitleGo_true_of_lower rest (fun d hd => h d (List.mem_cons_of_mem c hd))
      simp [pyTitle, pyTitleGo, capFirstSpec, isAsciiLetter_of_lower hc.1 hc.2, hrest]

theorem splitOnChar_ne_nil (sep : Char) (s : List Char) : splitOnChar sep s ≠ [] := by
  cases s with
  | nil => simp [splitOnChar]
  | cons c rest =>
      simp only [splitOnChar]
      cases h : splitOnChar sep rest with
      | nil => simp
      | cons seg segs =>
          by_cases hc : c = sep <;> simp [hc]

theorem mem_of_mem_splitOnChar (sep : Char) :
    ∀ (s seg : List Char), seg ∈ splitOnChar sep s → ∀ c ∈ seg, c ∈ s ∧ c ≠ sep := by
  intro s
  induction s with
  | nil =>
      intro seg hseg c hc
      simp [splitOnChar] at hseg
      subst hseg
      simp at hc
  | cons a rest ih =>
      intro seg hseg c hc
      rcases hr : splitOnChar sep rest with _ | ⟨seg0, segs⟩
      · exact absurd hr (splitOnChar_ne_nil sep rest)
      · rw [splitOnChar, hr] at hseg
        dsimp only at hseg
        by_cases ha : a = sep
        · rw [if_pos ha] at hseg
          rcases List.mem_cons.mp hseg with h1 | h2
          · subst h1; simp at hc
          · have := ih seg (hr ▸ h2) c hc
            exact ⟨List.mem_cons_of_mem a this.1, this.2⟩
        · rw [if_neg ha] at hseg
          rcases List.mem_cons.mp hseg with h1 | h2
          · subst h1
            rcases List.mem_cons.mp hc with h3 | h4
            · subst h3; exact ⟨List.mem_cons_self c rest, ha⟩
            · have := ih seg0 (hr ▸ List.mem_cons_self seg0 segs) c h4
              exact ⟨List.mem_cons_of_mem a this.1, this.2⟩
          · have := ih seg (hr ▸ List.mem_cons_of_mem seg0 h2) c hc
            exact ⟨List.mem_cons_of_mem a this.1, this.2⟩

theorem is_async_append_marker (N : List Char) :
    is_async_method_name (N ++ ASYNC_FUNCNAME_MARKER) = true := by
  simp only [is_async_method_name, List.isSuffixOf_iff_suffix]
  exact List.suffix_append N ASYNC_FUNCNAME_MARKER

theorem strip_marker (N : List Char) :
    get_funcname_from_async_name (N ++ ASYNC_FUNCNAME_MARKER) = N := by
  have hm : ASYNC_FUNCNAME_MARKER.length = 6 := rfl
  have hlen : (N ++ ASYNC_FUNCNAME_MARKER).length = N.length + 6 := by
    simp [List.length_append, hm]
  unfold get_funcname_from_async_name pySliceTo
  rw [hlen, hm]
  rw [if_neg (by push_cast; omega)]
  have harg : (((N.length + 6 : Nat) : Int) - (6 : Nat)).toNat = N.length := by
    push_cast
    omega
  rw [harg]
  exact List.take_left N ASYNC_FUNCNAME_MARKER

theorem getattr_isAsync (name : List Char) (args : List Json)
    (kwargs : List (String × Json)) :
    (getattr_invoke name args kwargs).isAsync = is_async_method_name name := by
  by_cases h : is_async_method_name name <;> simp [getattr_invoke, h]

/-- C1: on identifiers in word-separated lowercase form (lowercase ASCII
letters and underscores), `to_camel_case` splits on the underscore, keeps
the first segment, upper-cases the first letter of each later segment
leaving that segment's remaining characters unchanged, and concatenates;
in particular `create_project ↦ createProject`, `get_me ↦ getMe`, and the
single-segment `ping` passes through unchanged. -/
theorem to_camel_case_correct :
    (∀ s : List Char, (∀ c ∈ s, (97 ≤ c.toNat ∧ c.toNat ≤ 122) ∨ c = '_') →
        to_camel_case s = camelCaseSpec s)
    ∧ to_camel_case "create_project".data = "createProject".data
    ∧ to_camel_case "get_me".data = "getMe".data
    ∧ to_camel_case "ping".data = "ping".data := by
  refine ⟨?_, by decide, by decide, by decide⟩
  intro s hs
  unfold to_camel_case camelCaseSpec
  cases h : splitOnChar '_' s with
  | nil => rfl
  | cons c0 rest =>
      dsimp only
      have hmap : rest.map pyTitle = rest.map capFirstSpec := by
        apply List.map_congr_left
        intro seg hseg
        apply pyTitle_of_lower
        intro c hcseg
        have hmem := mem_of_mem_splitOnChar '_' s seg
          (h ▸ List.mem_cons_of_mem c0 hseg) c hcseg
        rcases hs c hmem.1 with hl | he
        · exact hl
        · exact absurd he hmem.2
      rw [hmap]

/-- Witness for C1: the general statement applied to `"create_project"`. -/
theorem to_camel_case_correct_witness :
    (∀ c ∈ "create_project".data, (97 ≤ c.toNat ∧ c.toNat ≤ 122) ∨ c = '_')
    ∧ to_camel_case "create_project".data = camelCaseSpec "create_project".data :=
  ⟨by decide, to_camel_case_correct.1 "create_project".data (by decide)⟩

/-- C2 counterexample: the body `{"error": 5}` parses as a JSON object and
contains an `"error"` key, yet the call fails with an `AttributeError`
(from `.get` on an integer), not with a `ClientError` carrying a
server-supplied message. -/
theorem parse_response_error_claim_counterexample :
    parse_response (HttpBody.decodes (Json.obj [("error", Json.num 5)]))
        = Except.error PyExc.attributeError
    ∧ resultOrClientError
        (parse_response (HttpBody.decodes (Json.obj [("error", Json.num 5)]))) = false :=
  ⟨rfl, rfl⟩

/-- C2 (amended): for a body parsing as a JSON object, when it has an
`"error"` member that is itself an object the call fails with a
`ClientError` carrying that object's `"message"` member (null when
absent); when it has no `"error"` key the call returns the `"result"`
member (null when absent). -/
theorem parse_response_object_body (kvs : List (String × Json)) :
    (∀ ekvs : List (String × Json), dictHasKey kvs "error" = true →
        dictGet kvs "error" = Json.obj ekvs →
        parse_response (HttpBody.decodes (Json.obj kvs))
          = Except.error (PyExc.clientError (dictGet ekvs "message")))
    ∧ (dictHasKey kvs "error" = false →
        parse_response (HttpBody.decodes (Json.obj kvs))
          = Except.ok (dictGet kvs "result")) := by
  constructor
  · intro ekvs hk he
    simp [parse_response, pyContains, pyGet, hk, he]
  · intro hk
    simp [parse_response, pyContains, pyGet, hk]

/-- Witness for C2: the spec's two examples, `{"error": {"message": "Not
found"}}` failing with message `"Not found"` and `{"result": 42}`
returning `42`. -/
theorem parse_response_object_body_witness :
    parse_response (HttpBody.decodes
        (Json.obj [("error", Json.obj [("message", Json.str "Not found")])]))
      = Except.error (PyExc.clientError (dictGet [("message", Json.str "Not found")] "message"))
    ∧ parse_response (HttpBody.decodes (Json.obj [("result", Json.num 42)]))
      = Except.ok (dictGet [("result", Json.num 42)] "result")
    ∧ dictGet [("message", Json.str "Not found")] "message" = Json.str "Not found"
    ∧ dictGet [("result", Json.num 42)] "result" = Json.num 42 :=
  ⟨(parse_response_object_body _).1 _ rfl rfl,
   (parse_response_object_body _).2 rfl, rfl, rfl⟩

/-- C3 counterexample: the valid-JSON body `42` makes the call raise a
`TypeError` (from `"error" in 42`), so not every failure is a
`ClientError`. -/
theorem client_error_only_counterexample :
    do_request (TransportResult.success (HttpBody.decodes (Json.num 42)))
        = Except.error PyExc.typeError
    ∧ resultOrClientError
        (do_request (TransportResult.success (HttpBody.decodes (Json.num 42)))) = false :=
  ⟨rfl, rfl⟩

/-- C3 (amended): for transport failures, empty bodies, bodies that are not
valid JSON, and bodies decoding to a JSON object whose `"error"` member
(when present) is itself an object, the call either returns a result value
or raises `ClientError`; bodies decoding to non-object JSON (or with a
non-object `"error"` member) are excluded, as they can raise `TypeError`
or `AttributeError`. -/
theorem client_error_only (t : TransportResult) (h : wellShaped t = true) :
    resultOrClientError (do_request t) = true := by
  cases t with
  | fail msg => rfl
  | success body =>
      cases body with
      | empty => rfl
      | undecodable e => rfl
      | decodes j =>
          cases j with
          | null => simp [wellShaped, wellShapedBody] at h
          | bool b => simp [wellShaped, wellShapedBody] at h
          | num n => simp [wellShaped, wellShapedBody] at h
          | str s => simp [wellShaped, wellShapedBody] at h
          | arr xs => simp [wellShaped, wellShapedBody] at h
          | obj kvs =>
              simp only [wellShaped, wellShapedBody] at h
              by_cases hk : dictHasKey kvs "error" = true
              · rw [if_pos hk] at h
                cases he : dictGet kvs "error" with
                | obj ekvs =>
                    simp [do_request, parse_response, pyContains, pyGet, hk, he,
                      resultOrClientError]
                | null => rw [he] at h; simp at h
                | bool b => rw [he] at h; simp at h
                | num n => rw [he] at h; simp at h
                | str s => rw [he] at h; simp at h
                | arr xs => rw [he] at h; simp at h
              · have hk' : dictHasKey kvs "error" = false := by
                  cases hkk : dictHasKey kvs "error"
                  · rfl
                  · exact absurd hkk hk
                simp [do_request, parse_response, pyContains, pyGet, hk',
                  resultOrClientError]

/-- Witness for C3: a transport success with body `{"result": 7}` is well
shaped and yields a result or `ClientError`. -/
theorem client_error_only_witness :
    wellShaped (TransportResult.success (HttpBody.decodes
        (Json.obj [("result", Json.num 7)]))) = true
    ∧ resultOrClientError (do_request (TransportResult.success (HttpBody.decodes
        (Json.obj [("result", Json.num 7)])))) = true :=
  ⟨by decide, client_error_only _ (by decide)⟩

/-- C4: the request envelope built by `execute` is exactly
`{"id": 1, "jsonrpc": "2.0", "method": M, "params": P}` for every wire
method name `M` and params mapping `P`: the id is the constant 1 on every
call and the params mapping is forwarded verbatim. -/
theorem execute_envelope (cfg : ClientConfig) (M : String) (P : List (String × Json)) :
    (executeRequest cfg M P).payload
      = Json.obj [("id", Json.num 1), ("jsonrpc", Json.str "2.0"),
                  ("method", Json.str M), ("params", Json.obj P)] := rfl

/-- C5 counterexample: with the auth header configured as
`"Content-Type"`, the later fixed entry of the headers dict literal
overwrites the auth entry (Python dicts keep the last binding of a key),
so the value sent under that name is `"application/json"` and the claimed
bare base64 of the credentials is not sent. -/
theorem execute_auth_header_counterexample :
    headersGet (executeHeaders (ClientConfig.mk "http://localhost/jsonrpc.php"
        "jsonrpc" "token" "Content-Type" "Kanboard Python API Client")) "Content-Type"
      = some "application/json"
    ∧ headersGet (executeHeaders (ClientConfig.mk "http://localhost/jsonrpc.php"
        "jsonrpc" "token" "Content-Type" "Kanboard Python API Client")) "Content-Type"
      ≠ some (b64OfString ("jsonrpc" ++ ":" ++ "token")) :=
  ⟨by decide, by decide⟩

/-- C5 (amended): reading the headers dict with Python's last-binding-wins
semantics, the authentication header value sent is
`"Basic " + base64(U + ":" + P)` when the configured header name is the
default `"Authorization"`, and the bare base64 value for any other name
distinct from the fixed `"Content-Type"` and `"User-Agent"` entries; when
the configured name equals one of those two, the dict literal's later
fixed entry overwrites the auth entry, so `"application/json"`
(respectively the user-agent string) is sent under that name and no
base64 value is sent at all. -/
theorem execute_auth_header (cfg : ClientConfig) :
    (cfg.auth_header = DEFAULT_AUTH_HEADER →
        headersGet (executeHeaders cfg) cfg.auth_header
          = some ("Basic " ++ b64OfString (cfg.username ++ ":" ++ cfg.password)))
    ∧ (cfg.auth_header ≠ DEFAULT_AUTH_HEADER → cfg.auth_header ≠ "Content-Type" →
        cfg.auth_header ≠ "User-Agent" →
        headersGet (executeHeaders cfg) cfg.auth_header
          = some (b64OfString (cfg.username ++ ":" ++ cfg.password)))
    ∧ (cfg.auth_header = "Content-Type" →
        headersGet (executeHeaders cfg) cfg.auth_header = some "application/json")
    ∧ (cfg.auth_header = "User-Agent" →
        headersGet (executeHeaders cfg) cfg.auth_header = some cfg.user_agent) := by
  refine ⟨?_, ?_, ?_, ?_⟩
  · intro h
    simp only [headersGet, executeHeaders, h]
    rfl
  · intro h h2 h3
    have e2 : ("Content-Type" == cfg.auth_header) = false :=
      beq_eq_false_iff_ne.mpr (Ne.symm h2)
    have e3 : ("User-Agent" == cfg.auth_header) = false :=
      beq_eq_false_iff_ne.mpr (Ne.symm h3)
    simp [headersGet, executeHeaders, h, e2, e3]
  · intro h
    simp only [headersGet, executeHeaders, h]
    rfl
  · intro h
    simp only [headersGet, executeHeaders, h]
    rfl

/-- Witness for C5: with username `jsonrpc` and password `token`, the
default header name carries `"Basic anNvbnJwYzp0b2tlbg=="`, the custom
name `X-API-Auth` carries the bare base64 text, and the colliding name
`User-Agent` carries the user-agent string instead. -/
theorem execute_auth_header_witness :
    headersGet (executeHeaders (ClientConfig.mk "http://localhost/jsonrpc.php" "jsonrpc"
        "token" DEFAULT_AUTH_HEADER "Kanboard Python API Client")) DEFAULT_AUTH_HEADER
      = some ("Basic " ++ b64OfString ("jsonrpc" ++ ":" ++ "token"))
    ∧ headersGet (executeHeaders (ClientConfig.mk "http://localhost/jsonrpc.php" "jsonrpc"
        "token" "X-API-Auth" "Kanboard Python API Client")) "X-API-Auth"
      = some (b64OfString ("jsonrpc" ++ ":" ++ "token"))
    ∧ headersGet (executeHeaders (ClientConfig.mk "http://localhost/jsonrpc.php" "jsonrpc"
        "token" "User-Agent" "Kanboard Python API Client")) "User-Agent"
      = some "Kanboard Python API Client"
    ∧ b64OfString "jsonrpc:token" = "anNvbnJwYzp0b2tlbg==" :=
  ⟨(execute_auth_header (ClientConfig.mk "http://localhost/jsonrpc.php" "jsonrpc" "token"
      DEFAULT_AUTH_HEADER "Kanboard Python API Client")).1 rfl,
   (execute_auth_header (ClientConfig.mk "http://localhost/jsonrpc.php" "jsonrpc" "token"
      "X-API-Auth" "Kanboard Python API Client")).2.1 (by decide) (by decide) (by decide),
   (execute_auth_header (ClientConfig.mk "http://localhost/jsonrpc.php" "jsonrpc" "token"
      "User-Agent" "Kanboard Python API Client")).2.2.2 rfl,
   by decide⟩

/-- C6 counterexample: on a client constructed with a supplied loop
(`_event_loop` never assigned, the C9 defect), the asynchronous invocation
of `create_project_async` raises `AttributeError` before any request is
made, while the synchronous invocation of `create_project` on the same
client returns the server's result — the two paths do not yield the same
result or the same error. -/
theorem async_sync_equivalence_counterexample :
    client_call (ClientState.mk (ClientConfig.mk "http://localhost/jsonrpc.php" "jsonrpc"
          "token" DEFAULT_AUTH_HEADER "Kanboard Python API Client")
          (clientInitEventLoop (some (EventLoop.supplied 0)) true))
        (fun _ => TransportResult.success (HttpBody.decodes (Json.obj [("result", Json.num 7)])))
        ("create_project".data ++ ASYNC_FUNCNAME_MARKER) [] []
      = Except.error PyExc.attributeError
    ∧ client_call (ClientState.mk (ClientConfig.mk "http://localhost/jsonrpc.php" "jsonrpc"
          "token" DEFAULT_AUTH_HEADER "Kanboard Python API Client")
          (clientInitEventLoop (some (EventLoop.supplied 0)) true))
        (fun _ => TransportResult.success (HttpBody.decodes (Json.obj [("result", Json.num 7)])))
        "create_project".data [] []
      = Except.ok (Json.num 7) :=
  ⟨rfl, rfl⟩

/-- C6 (amended): on a client whose `_event_loop` attribute was assigned
(as `__init__` does when no loop is supplied), invoking `N + "_async"` for
a name `N` not ending in the marker performs the same underlying `execute`
call as the synchronous invocation of `N` — the end-to-end outcomes are
equal and both equal one `execute` of the shared wire method name, with
identical params mapping and identical request (payload and headers);
the façade changes only where the blocking call runs.  On a client left
without the attribute, the asynchronous form instead raises
`AttributeError` (see the counterexample). -/
theorem async_sync_equivalence (st : ClientState) (net : RpcRequest → TransportResult)
    (N : List Char) (args1 args2 : List Json) (kwargs : List (String × Json))
    (l : EventLoop) (hloop : st.eventLoop = some l)
    (h : is_async_method_name N = false) :
    client_call st net (N ++ ASYNC_FUNCNAME_MARKER) args1 kwargs
        = client_call st net N args2 kwargs
    ∧ client_call st net N args2 kwargs
        = execute st.cfg net (String.mk (to_camel_case N)) kwargs
    ∧ (getattr_invoke (N ++ ASYNC_FUNCNAME_MARKER) args1 kwargs).method
        = (getattr_invoke N args2 kwargs).method
    ∧ (getattr_invoke (N ++ ASYNC_FUNCNAME_MARKER) args1 kwargs).params
        = (getattr_invoke N args2 kwargs).params
    ∧ executeRequest st.cfg (getattr_invoke (N ++ ASYNC_FUNCNAME_MARKER) args1 kwargs).method
          (getattr_invoke (N ++ ASYNC_FUNCNAME_MARKER) args1 kwargs).params
        = executeRequest st.cfg (getattr_invoke N args2 kwargs).method
          (getattr_invoke N args2 kwargs).params := by
  have hasync := is_async_append_marker N
  have hstrip := strip_marker N
  refine ⟨?_, ?_, ?_, ?_, ?_⟩ <;>
    simp [client_call, getattr_invoke, hasync, hstrip, h, hloop]

/-- Witness for C6: on a client built without a supplied loop (so
`_event_loop` holds the ambient loop), the async and sync invocations of
`create_project` have equal outcomes. -/
theorem async_sync_equivalence_witness :
    is_async_method_name "create_project".data = false
    ∧ client_call (ClientState.mk (ClientConfig.mk "http://localhost/jsonrpc.php" "jsonrpc"
          "token" DEFAULT_AUTH_HEADER "Kanboard Python API Client")
          (clientInitEventLoop none true))
        (fun _ => TransportResult.success HttpBody.empty)
        ("create_project".data ++ ASYNC_FUNCNAME_MARKER) [] []
      = client_call (ClientState.mk (ClientConfig.mk "http://localhost/jsonrpc.php" "jsonrpc"
          "token" DEFAULT_AUTH_HEADER "Kanboard Python API Client")
          (clientInitEventLoop none true))
        (fun _ => TransportResult.success HttpBody.empty)
        "create_project".data [] [] :=
  ⟨by decide,
   (async_sync_equivalence
      (ClientState.mk (ClientConfig.mk "http://localhost/jsonrpc.php" "jsonrpc"
        "token" DEFAULT_AUTH_HEADER "Kanboard Python API Client")
        (clientInitEventLoop none true))
      (fun _ => TransportResult.success HttpBody.empty)
      "create_project".data [] [] [] EventLoop.ambient rfl (by decide)).1⟩

/-- C7: a dispatched name is flagged asynchronous exactly when it ends in
the `"_async"` marker, and the marker is stripped before the wire-name
translation; in particular `create_project_async` is flagged async with
wire name `createProject`, and any name not ending in the marker is
dispatched synchronously. -/
theorem async_marker_detection :
    (∀ (name : List Char) (args : List Json) (kwargs : List (String × Json)),
        ((getattr_invoke name args kwargs).isAsync = true ↔ ASYNC_FUNCNAME_MARKER <:+ name)
        ∧ (∀ pre : List Char, name = pre ++ ASYNC_FUNCNAME_MARKER →
            (getattr_invoke name args kwargs).method = String.mk (to_camel_case pre)))
    ∧ (getattr_invoke "create_project_async".data [] []).isAsync = true
    ∧ (getattr_invoke "create_project_async".data [] []).method = "createProject" := by
  refine ⟨?_, by decide, by decide⟩
  intro name args kwargs
  constructor
  · rw [getattr_isAsync, is_async_method_name, List.isSuffixOf_iff_suffix]
  · intro pre hpre
    subst hpre
    simp [getattr_invoke, is_async_append_marker, strip_marker]

/-- Witness for C7: the general statement applied to
`create_project_async`, whose marker-stripped wire name is the camel case
of `create_project`. -/
theorem async_marker_detection_witness :
    (getattr_invoke "create_project_async".data [] []).method
      = String.mk (to_camel_case "create_project".data) :=
  (async_marker_detection.1 "create_project_async".data [] []).2
    "create_project".data (by decide)

/-- C8 counterexample: the empty-body message the code raises is
`"Empty response from server"` (capital E), not the claimed fixed string
`"empty response from server"`. -/
theorem empty_response_message_counterexample :
    parse_response HttpBody.empty
        ≠ Except.error (PyExc.clientError (Json.str "empty response from server")) := by
  simp only [parse_response, ne_eq, Except.error.injEq, PyExc.clientError.injEq,
    Json.str.injEq]
  decide

/-- C8 (amended): a call whose response body is empty fails with a
`ClientError` whose message is exactly the fixed string
`"Empty response from server"`. -/
theorem empty_response_message :
    parse_response HttpBody.empty
      = Except.error (PyExc.clientError (Json.str "Empty response from server")) := rfl

/-- C9: the `loop` argument of `Client.__init__` is dropped: a supplied
event loop is never stored in `_event_loop` (the attribute stays unset),
so a subsequent asynchronous call raises `AttributeError` instead of
running on the supplied scheduler, while with no supplied loop the ambient
(or a newly created) loop is stored and used. -/
theorem supplied_loop_discarded :
    clientInitEventLoop (some (EventLoop.supplied 0)) true = none
    ∧ asyncCallLoop (clientInitEventLoop (some (EventLoop.supplied 0)) true)
        = Except.error PyExc.attributeError
    ∧ (∀ avail : Bool, asyncCallLoop (clientInitEventLoop none avail)
        = Except.ok (if avail then EventLoop.ambient else EventLoop.fresh)) :=
  ⟨rfl, rfl, fun _ => rfl⟩

/-- C10: positional arguments are silently discarded by the dynamic
dispatch: the dispatched call is the same whatever positional arguments
are supplied (no error is raised), and only the keyword arguments become
the params mapping. -/
theorem positional_args_ignored (name : List Char) (args : List Json)
    (kwargs : List (String × Json)) :
    getattr_invoke name args kwargs = getattr_invoke name [] kwargs
    ∧ (getattr_invoke name args kwargs).params = kwargs := by
  refine ⟨rfl, ?_⟩
  by_cases h : is_async_method_name name <;> simp [getattr_invoke, h]
